import Mathlib

/-!
# 8devices Lima board bring-up (`mach-lima.c`)

A shallow embedding of `target/linux/ar71xx/files/arch/mips/ath79/mach-lima.c`.

The file is static descriptor data plus one straight-line routine, `lima_setup`,
which assigns fields of three process-wide records (`ath79_switch_data`,
`ath79_eth0_data`, `ath79_eth1_data`) and calls eight subsystem entry points.

* Machine words are natural numbers.  `BIT` and `~` work on the 32-bit
  `unsigned long` of the MIPS32 target, with the reduction modulo `2 ^ 32`
  written out.
* The three records are fields of `World`.  Members of the records that
  `mach-lima.c` never names are kept in a `rest` field of arbitrary type.
* The subsystem entry points are defined outside `mach-lima.c`.  They are
  embedded as recording collaborators: each appends the call, with its
  arguments and the shared records as they stand at that moment, to
  `World.trace`, and reports a status chosen by an arbitrary `Verdict`.
-/

namespace Lima

/-! ## Words and kernel constants -/

/-- Width in bits of `unsigned long` (and of `u32`) on the MIPS32 target. -/
def BITS_PER_LONG : Nat := 32

/-- Modelled from the spec: the kernel macro `BIT(nr)`, `1UL << nr`, declared
outside `mach-lima.c`; the spec writes `bit0` for `0b01` and `bit1` for
`0b10`. -/
def BIT (nr : Nat) : Nat := (1 <<< nr) % 2 ^ BITS_PER_LONG

/-- The C operator `~` on an `unsigned long`: every one of the 32 bits flipped. -/
def bitnot (x : Nat) : Nat := (2 ^ BITS_PER_LONG - 1) ^^^ (x % 2 ^ BITS_PER_LONG)

/-- Modelled from the spec: the interface-mode enumeration, declared outside
`mach-lima.c`; the spec names the modes MII and GMII, every other
enumerator is `other`. -/
inductive phy_interface_t where
  | PHY_INTERFACE_MODE_MII
  | PHY_INTERFACE_MODE_GMII
  | other (tag : Nat)
  deriving DecidableEq, Repr

export phy_interface_t (PHY_INTERFACE_MODE_MII PHY_INTERFACE_MODE_GMII)

/-- Modelled from the spec: the constant `DUPLEX_FULL`, declared outside
`mach-lima.c`; the spec calls the value `full`.  The number is the one of the
kernel headers; no statement below depends on it. -/
def DUPLEX_FULL : Int := 1

/-- Modelled from the spec: the constant `SPEED_100`, declared outside
`mach-lima.c`; the spec gives the speed as 100. -/
def SPEED_100 : Int := 100

/-- Modelled from the spec: the input event type `EV_KEY`, declared outside
`mach-lima.c`; the spec has no word on it.  The number is the one of the
kernel headers; no statement below depends on it. -/
def EV_KEY : Nat := 1

/-- Modelled from the spec: the key code `BTN_0`, declared outside
`mach-lima.c`; the spec calls it the logical key code.  The number is the one
of the kernel headers; no statement below depends on it. -/
def BTN_0 : Nat := 256

/-- Modelled from the spec: the chip-select kinds, declared outside
`mach-lima.c`; the spec distinguishes internal from external. -/
inductive ath79_spi_cs_type where
  | ATH79_SPI_CS_TYPE_INTERNAL
  | ATH79_SPI_CS_TYPE_GPIO
  deriving DecidableEq, Repr

export ath79_spi_cs_type (ATH79_SPI_CS_TYPE_INTERNAL ATH79_SPI_CS_TYPE_GPIO)

/-! ## Board constants (`#define`s of `mach-lima.c`) -/

def LIMA_GPIO_BTN_RST_DEFAULT : Nat := 16

/-- Poll interval in milliseconds. -/
def LIMA_KEYS_POLL_INTERVAL : Nat := 20

def LIMA_KEYS_DEBOUNCE_INTERVAL : Nat := 3 * LIMA_KEYS_POLL_INTERVAL

def LIMA_ETH_PHYS : Nat := BIT 0 ||| BIT 1

/-! ## Descriptor records and the static tables -/

/-- The members of `struct gpio_keys_button` that `lima_gpio_keys` initialises. -/
structure gpio_keys_button where
  desc : String
  type : Nat
  code : Nat
  debounce_interval : Nat
  gpio : Nat
  active_low : Nat
  deriving DecidableEq, Repr

/-- The members of `struct ath79_spi_controller_data` that the file initialises. -/
structure ath79_spi_controller_data where
  cs_type : ath79_spi_cs_type
  cs_line : Nat
  deriving DecidableEq, Repr

/-- The members of `struct spi_board_info` that `lima_spi_info` initialises;
`controller_data` is the record the C pointer refers to. -/
structure spi_board_info where
  bus_num : Nat
  chip_select : Nat
  max_speed_hz : Nat
  modalias : String
  controller_data : ath79_spi_controller_data
  deriving DecidableEq, Repr

/-- The members of `struct ath79_spi_platform_data` that `lima_spi_data`
initialises. -/
structure ath79_spi_platform_data where
  bus_num : Nat
  num_chipselect : Nat
  use_hw_shiftreg : Bool
  deriving DecidableEq, Repr

def lima_gpio_keys : List gpio_keys_button :=
  [ { desc := "button0"
      type := EV_KEY
      code := BTN_0
      debounce_interval := LIMA_KEYS_DEBOUNCE_INTERVAL
      gpio := LIMA_GPIO_BTN_RST_DEFAULT
      active_low := 1 } ]

def lima_spi0_cdata : ath79_spi_controller_data :=
  { cs_type := ATH79_SPI_CS_TYPE_INTERNAL
    cs_line := 0 }

def lima_spi1_cdata : ath79_spi_controller_data :=
  { cs_type := ATH79_SPI_CS_TYPE_INTERNAL
    cs_line := 1 }

def lima_spi2_cdata : ath79_spi_controller_data :=
  { cs_type := ATH79_SPI_CS_TYPE_INTERNAL
    cs_line := 2 }

def lima_spi_info : List spi_board_info :=
  [ { bus_num := 0
      chip_select := 0
      max_speed_hz := 25000000
      modalias := "m25p80"
      controller_data := lima_spi0_cdata },
    { bus_num := 0
      chip_select := 1
      max_speed_hz := 25000000
      modalias := "spidev"
      controller_data := lima_spi1_cdata },
    { bus_num := 0
      chip_select := 2
      max_speed_hz := 25000000
      modalias := "spidev"
      controller_data := lima_spi2_cdata } ]

def lima_spi_data : ath79_spi_platform_data :=
  { bus_num := 0
    num_chipselect := 3
    use_hw_shiftreg := true }

/-- The C macro `ARRAY_SIZE`. -/
def ARRAY_SIZE {α : Type} (a : List α) : Nat := a.length

/-! ## The shared records -/

/-- The record type of `ath79_switch_data`: the two members `lima_setup`
names, and all its other members in `rest`.  The type is declared outside
`mach-lima.c`, so the widths of the members are not fixed here; the values
`lima_setup` stores fit any width the old values fit (`phy_poll_mask_fits`). -/
structure SwitchData (S : Type) where
  phy4_mii_en : Nat
  phy_poll_mask : Nat
  rest : S
  deriving DecidableEq, Repr

/-- The record type of `ath79_eth0_data` and `ath79_eth1_data`: the four
members `lima_setup` names, and all its other members in `rest`. -/
structure EthData (E : Type) where
  phy_if_mode : phy_interface_t
  duplex : Int
  speed : Int
  phy_mask : Nat
  rest : E
  deriving DecidableEq, Repr

/-- The three shared records, as a collaborator sees them at one moment. -/
structure Shared (S E : Type) where
  ath79_switch_data : SwitchData S
  ath79_eth0_data : EthData E
  ath79_eth1_data : EthData E
  deriving DecidableEq, Repr

/-! ## The subsystem entry points -/

/-- One invocation of a subsystem entry point, with the arguments passed. -/
inductive Call where
  | register_spi (pdata : ath79_spi_platform_data) (info : List spi_board_info) (n : Nat)
  | register_gpio_keys_polled (id : Int) (poll_interval : Nat) (nbuttons : Nat)
      (buttons : List gpio_keys_button)
  | setup_ar933x_phy4_switch (mac : Bool) (mdio : Bool)
  | register_mdio (id : Nat) (phy_mask : Nat)
  | register_eth (id : Nat)
  | register_wmac_simple
  | register_usb
  | register_pci
  deriving DecidableEq, Repr

/-- What a call reports back to its caller. -/
inductive Status where
  | ok
  | failed
  deriving DecidableEq, Repr

/-- An entry of the trace: the call made and the shared records at that moment. -/
structure Event (S E : Type) where
  call : Call
  seen : Shared S E
  deriving DecidableEq, Repr

/-- The state `lima_setup` runs in: the three global records and the calls
observed so far, oldest first. -/
structure World (S E : Type) where
  ath79_switch_data : SwitchData S
  ath79_eth0_data : EthData E
  ath79_eth1_data : EthData E
  trace : List (Event S E)
  deriving DecidableEq, Repr

/-- The shared records of a state. -/
def World.shared {S E : Type} (w : World S E) : Shared S E :=
  { ath79_switch_data := w.ath79_switch_data
    ath79_eth0_data := w.ath79_eth0_data
    ath79_eth1_data := w.ath79_eth1_data }

/-- Which status each observed call reports; any function is allowed. -/
abbrev Verdict (S E : Type) := Event S E → Status

/-- Modelled from the spec: the body shared by all the subsystem entry points,
none of which is defined in `mach-lima.c`.  A recording collaborator: the call
and the shared records it sees are appended to the trace, the shared records
are left as they are, and the status is the one the verdict gives. -/
def invoke {S E : Type} (v : Verdict S E) (c : Call) (w : World S E) :
    World S E × Status :=
  ({ w with trace := w.trace ++ [⟨c, w.shared⟩] }, v ⟨c, w.shared⟩)

/-- Modelled from the spec: `ath79_register_spi`, `registerSpiBus` of the spec. -/
def ath79_register_spi {S E : Type} (v : Verdict S E) (pdata : ath79_spi_platform_data)
    (info : List spi_board_info) (n : Nat) (w : World S E) : World S E × Status :=
  invoke v (.register_spi pdata info n) w

/-- Modelled from the spec: `ath79_register_gpio_keys_polled`,
`registerGpioButtonsPolled` of the spec. -/
def ath79_register_gpio_keys_polled {S E : Type} (v : Verdict S E) (id : Int)
    (poll_interval nbuttons : Nat) (buttons : List gpio_keys_button) (w : World S E) :
    World S E × Status :=
  invoke v (.register_gpio_keys_polled id poll_interval nbuttons buttons) w

/-- Modelled from the spec: `ath79_setup_ar933x_phy4_switch`,
`configurePhySwitch` of the spec. -/
def ath79_setup_ar933x_phy4_switch {S E : Type} (v : Verdict S E) (mac mdio : Bool)
    (w : World S E) : World S E × Status :=
  invoke v (.setup_ar933x_phy4_switch mac mdio) w

/-- Modelled from the spec: `ath79_register_mdio`, `registerMdioBus` of the spec. -/
def ath79_register_mdio {S E : Type} (v : Verdict S E) (id phy_mask : Nat)
    (w : World S E) : World S E × Status :=
  invoke v (.register_mdio id phy_mask) w

/-- Modelled from the spec: `ath79_register_eth`, `registerEthernetMac` of the spec. -/
def ath79_register_eth {S E : Type} (v : Verdict S E) (id : Nat) (w : World S E) :
    World S E × Status :=
  invoke v (.register_eth id) w

/-- Modelled from the spec: `ath79_register_wmac_simple`, `registerWirelessMac`
of the spec. -/
def ath79_register_wmac_simple {S E : Type} (v : Verdict S E) (w : World S E) :
    World S E × Status :=
  invoke v .register_wmac_simple w

/-- Modelled from the spec: `ath79_register_usb`, `registerUsbHost` of the spec. -/
def ath79_register_usb {S E : Type} (v : Verdict S E) (w : World S E) :
    World S E × Status :=
  invoke v .register_usb w

/-- Modelled from the spec: `ath79_register_pci`, `registerPciHost` of the spec. -/
def ath79_register_pci {S E : Type} (v : Verdict S E) (w : World S E) :
    World S E × Status :=
  invoke v .register_pci w

/-! ## `lima_setup` -/

/-- The routine `lima_setup`, statement by statement.  Every call is an
expression statement: whatever it reports is dropped (`.1` keeps the state
only), and the next statement runs. -/
def lima_setup {S E : Type} (v : Verdict S E) (w : World S E) : World S E :=
  let w := (ath79_register_spi v lima_spi_data lima_spi_info 3 w).1
  let w := (ath79_register_gpio_keys_polled v (-1) LIMA_KEYS_POLL_INTERVAL
              (ARRAY_SIZE lima_gpio_keys) lima_gpio_keys w).1
  let w := (ath79_setup_ar933x_phy4_switch v true true w).1
  let w := (ath79_register_mdio v 0 (bitnot LIMA_ETH_PHYS) w).1
  let w := { w with ath79_switch_data.phy4_mii_en := 1 }
  -- LAN
  let w := { w with ath79_switch_data.phy_poll_mask := w.ath79_switch_data.phy_poll_mask ||| BIT 0 }
  let w := { w with ath79_eth1_data.phy_if_mode := PHY_INTERFACE_MODE_GMII }
  let w := { w with ath79_eth1_data.duplex := DUPLEX_FULL }
  let w := { w with ath79_eth1_data.phy_mask := BIT 1 }
  let w := (ath79_register_eth v 1 w).1
  -- WAN
  let w := { w with ath79_eth0_data.phy_if_mode := PHY_INTERFACE_MODE_MII }
  let w := { w with ath79_eth0_data.duplex := DUPLEX_FULL }
  let w := { w with ath79_eth0_data.speed := SPEED_100 }
  let w := { w with ath79_eth0_data.phy_mask := BIT 0 }
  let w := (ath79_register_eth v 0 w).1
  let w := (ath79_register_wmac_simple v w).1
  let w := (ath79_register_usb v w).1
  let w := (ath79_register_pci v w).1
  w

/-! ## Observing a run -/

/-- The events one run of `lima_setup` from `w` adds to the trace, oldest first. -/
def observed {S E : Type} (v : Verdict S E) (w : World S E) : List (Event S E) :=
  (lima_setup v w).trace.drop w.trace.length

/-- The entry points one run of `lima_setup` invokes, in the order invoked. -/
def invoked {S E : Type} (v : Verdict S E) (w : World S E) : List Call :=
  (observed v w).map Event.call

/-- The status each invocation of the run reported, in the order invoked. -/
def reported {S E : Type} (v : Verdict S E) (w : World S E) : List Status :=
  (observed v w).map v

/-- The shared records seen by the invocations of `c` among the events `t`. -/
def seen_by {S E : Type} (c : Call) (t : List (Event S E)) : List (Shared S E) :=
  (t.filter (fun e => decide (e.call = c))).map Event.seen

/-- The shared records at the moment of the LAN registration `ath79_register_eth(1)`. -/
def at_lan {S E : Type} (w : World S E) : Shared S E :=
  { ath79_switch_data :=
      { phy4_mii_en := 1
        phy_poll_mask := w.ath79_switch_data.phy_poll_mask ||| BIT 0
        rest := w.ath79_switch_data.rest }
    ath79_eth0_data := w.ath79_eth0_data
    ath79_eth1_data :=
      { phy_if_mode := PHY_INTERFACE_MODE_GMII
        duplex := DUPLEX_FULL
        speed := w.ath79_eth1_data.speed
        phy_mask := BIT 1
        rest := w.ath79_eth1_data.rest } }

/-- The shared records at the moment of the WAN registration `ath79_register_eth(0)`. -/
def at_wan {S E : Type} (w : World S E) : Shared S E :=
  { at_lan w with
    ath79_eth0_data :=
      { phy_if_mode := PHY_INTERFACE_MODE_MII
        duplex := DUPLEX_FULL
        speed := SPEED_100
        phy_mask := BIT 0
        rest := w.ath79_eth0_data.rest } }

/-- A state with every named member zero and an empty trace. -/
def zero_world : World Unit Unit :=
  { ath79_switch_data := { phy4_mii_en := 0, phy_poll_mask := 0, rest := () }
    ath79_eth0_data :=
      { phy_if_mode := .other 0, duplex := 0, speed := 0, phy_mask := 0, rest := () }
    ath79_eth1_data :=
      { phy_if_mode := .other 0, duplex := 0, speed := 0, phy_mask := 0, rest := () }
    trace := [] }

/-- Every call reports success. -/
def all_ok {S E : Type} : Verdict S E := fun _ => .ok

/-- The LAN registration `ath79_register_eth(1)` reports failure, every other
call reports success. -/
def eth1_fails {S E : Type} : Verdict S E :=
  fun e => if e.call = .register_eth 1 then .failed else .ok

/-! ## The run, computed -/

theorem BIT_zero : BIT 0 = 1 := by decide

theorem BIT_one : BIT 1 = 2 := by decide

theorem LIMA_ETH_PHYS_eq : LIMA_ETH_PHYS = 3 := by decide

theorem bitnot_LIMA_ETH_PHYS : bitnot LIMA_ETH_PHYS = 0xFFFFFFFC := by decide

/-- The state `lima_setup` ends in, written out: the records are those of
`at_wan`, and nine events are appended to the trace. -/
theorem lima_setup_eq {S E : Type} (v : Verdict S E) (w : World S E) :
    lima_setup v w =
      { ath79_switch_data := (at_wan w).ath79_switch_data
        ath79_eth0_data := (at_wan w).ath79_eth0_data
        ath79_eth1_data := (at_wan w).ath79_eth1_data
        trace := w.trace ++
          [ ⟨.register_spi lima_spi_data lima_spi_info 3, w.shared⟩,
            ⟨.register_gpio_keys_polled (-1) LIMA_KEYS_POLL_INTERVAL 1 lima_gpio_keys,
              w.shared⟩,
            ⟨.setup_ar933x_phy4_switch true true, w.shared⟩,
            ⟨.register_mdio 0 (bitnot LIMA_ETH_PHYS), w.shared⟩,
            ⟨.register_eth 1, at_lan w⟩,
            ⟨.register_eth 0, at_wan w⟩,
            ⟨.register_wmac_simple, at_wan w⟩,
            ⟨.register_usb, at_wan w⟩,
            ⟨.register_pci, at_wan w⟩ ] } := by
  simp [lima_setup, ath79_register_spi, ath79_register_gpio_keys_polled,
    ath79_setup_ar933x_phy4_switch, ath79_register_mdio, ath79_register_eth,
    ath79_register_wmac_simple, ath79_register_usb, ath79_register_pci, invoke,
    World.shared, at_wan, at_lan, ARRAY_SIZE, lima_gpio_keys]

/-- The events of one run, written out. -/
theorem observed_eq {S E : Type} (v : Verdict S E) (w : World S E) :
    observed v w =
      [ ⟨.register_spi lima_spi_data lima_spi_info 3, w.shared⟩,
        ⟨.register_gpio_keys_polled (-1) LIMA_KEYS_POLL_INTERVAL 1 lima_gpio_keys,
          w.shared⟩,
        ⟨.setup_ar933x_phy4_switch true true, w.shared⟩,
        ⟨.register_mdio 0 (bitnot LIMA_ETH_PHYS), w.shared⟩,
        ⟨.register_eth 1, at_lan w⟩,
        ⟨.register_eth 0, at_wan w⟩,
        ⟨.register_wmac_simple, at_wan w⟩,
        ⟨.register_usb, at_wan w⟩,
        ⟨.register_pci, at_wan w⟩ ] := by
  simp [observed, lima_setup_eq]

/-- Widening the poll mask never leaves the width of its field: when the old
value fits `k` bits (`k` at least one), so does the value after
`phy_poll_mask |= BIT(0)`. -/
theorem phy_poll_mask_fits (x k : Nat) (hk : 0 < k) (hx : x < 2 ^ k) :
    x ||| BIT 0 < 2 ^ k := by
  rw [BIT_zero]
  exact Nat.or_lt_two_pow hx (Nat.one_lt_two_pow (Nat.pos_iff_ne_zero.mp hk))

/-! ## The claims -/

/-- C1: for every initial value of the shared records (and every way the
calls may report), after `lima_setup` returns `ath79_eth0_data` has
`phy_if_mode = MII`, `duplex = full`, `speed = 100` and `phy_mask = BIT(0) = 0b01`,
and `ath79_eth1_data` has `phy_if_mode = GMII`, `duplex = full` and
`phy_mask = BIT(1) = 0b10`. -/
theorem lima_setup_final_eth {S E : Type} (v : Verdict S E) (w : World S E) :
    (lima_setup v w).ath79_eth0_data.phy_if_mode = PHY_INTERFACE_MODE_MII ∧
    (lima_setup v w).ath79_eth0_data.duplex = DUPLEX_FULL ∧
    (lima_setup v w).ath79_eth0_data.speed = 100 ∧
    (lima_setup v w).ath79_eth0_data.phy_mask = BIT 0 ∧
    (lima_setup v w).ath79_eth0_data.phy_mask = 0b01 ∧
    (lima_setup v w).ath79_eth1_data.phy_if_mode = PHY_INTERFACE_MODE_GMII ∧
    (lima_setup v w).ath79_eth1_data.duplex = DUPLEX_FULL ∧
    (lima_setup v w).ath79_eth1_data.phy_mask = BIT 1 ∧
    (lima_setup v w).ath79_eth1_data.phy_mask = 0b10 := by
  simp [lima_setup_eq, at_wan, at_lan, SPEED_100, BIT_zero, BIT_one]

/-- C2: for every initial state, the calls of `lima_setup` seen by the
recording collaborators are, in this order and with nothing else, once each:
SPI bus registration, polled GPIO button registration, PHY switch
configuration with `(true, true)`, MDIO bus registration on bus 0, Ethernet
MAC 1 registration, Ethernet MAC 0 registration, wireless MAC registration,
USB host registration, PCI host registration; the trace that was there before
is kept in front of them. -/
theorem lima_setup_call_order {S E : Type} (v : Verdict S E) (w : World S E) :
    (lima_setup v w).trace.map Event.call =
      w.trace.map Event.call ++
        [ .register_spi lima_spi_data lima_spi_info 3,
          .register_gpio_keys_polled (-1) 20 1 lima_gpio_keys,
          .setup_ar933x_phy4_switch true true,
          .register_mdio 0 0xFFFFFFFC,
          .register_eth 1,
          .register_eth 0,
          .register_wmac_simple,
          .register_usb,
          .register_pci ] := by
  simp [lima_setup_eq, LIMA_KEYS_POLL_INTERVAL, bitnot_LIMA_ETH_PHYS]

/-- C3: configuration is written before the registration that consumes it.
In every run exactly one moment is seen by `ath79_register_eth(1)` and one by
`ath79_register_eth(0)`.  At the first, `ath79_eth1_data` holds GMII, full
duplex and `phy_mask = BIT(1)` and bit 0 of the switch `phy_poll_mask` is set;
at the second, `ath79_eth0_data` holds MII, full duplex, speed 100 and
`phy_mask = BIT(0)`.  The record each of the two calls sees for its own MAC is
the record `lima_setup` ends with. -/
theorem lima_setup_config_before_registration {S E : Type} (v : Verdict S E)
    (w : World S E) :
    ∃ lan wan : Shared S E,
      seen_by (.register_eth 1) (observed v w) = [lan] ∧
      seen_by (.register_eth 0) (observed v w) = [wan] ∧
      lan.ath79_eth1_data.phy_if_mode = PHY_INTERFACE_MODE_GMII ∧
      lan.ath79_eth1_data.duplex = DUPLEX_FULL ∧
      lan.ath79_eth1_data.phy_mask = BIT 1 ∧
      lan.ath79_switch_data.phy_poll_mask.testBit 0 = true ∧
      wan.ath79_eth0_data.phy_if_mode = PHY_INTERFACE_MODE_MII ∧
      wan.ath79_eth0_data.duplex = DUPLEX_FULL ∧
      wan.ath79_eth0_data.speed = SPEED_100 ∧
      wan.ath79_eth0_data.phy_mask = BIT 0 ∧
      lan.ath79_eth1_data = (lima_setup v w).ath79_eth1_data ∧
      lan.ath79_switch_data = (lima_setup v w).ath79_switch_data ∧
      wan.ath79_eth0_data = (lima_setup v w).ath79_eth0_data := by
  refine ⟨at_lan w, at_wan w, ?_, ?_, ?_⟩
  · simp [observed_eq, seen_by]
  · simp [observed_eq, seen_by]
  · simp [lima_setup_eq, at_wan, at_lan, BIT_zero, Nat.testBit_or]

/-- C4, refuted as stated: in the run from `zero_world` in which
`ath79_register_eth(1)` reports failure, that call is the fifth one made, and
Ethernet MAC 0, wireless MAC, USB host and PCI host registration are all
invoked after it. -/
theorem lima_setup_not_fail_fast :
    (invoked eth1_fails zero_world)[4]? = some (.register_eth 1) ∧
    (reported eth1_fails zero_world)[4]? = some .failed ∧
    (invoked eth1_fails zero_world).drop 5 =
      [.register_eth 0, .register_wmac_simple, .register_usb, .register_pci] := by
  simp [invoked, reported, observed_eq, eth1_fails]

/-- C4, amended: `lima_setup` never looks at what a call reports.  Whatever
two ways the calls report success or failure, the run is the same: the same
final records and the same trace; all nine calls are made, and the four after
`ath79_register_eth(1)` are Ethernet MAC 0, wireless MAC, USB host and PCI
host registration. -/
theorem lima_setup_ignores_status {S E : Type} (v v' : Verdict S E) (w : World S E) :
    lima_setup v w = lima_setup v' w ∧
    observed v w = observed v' w ∧
    (invoked v w).length = 9 ∧
    (reported v w).length = 9 ∧
    (invoked v w)[4]? = some (.register_eth 1) ∧
    (invoked v w).drop 5 =
      [.register_eth 0, .register_wmac_simple, .register_usb, .register_pci] := by
  simp [invoked, reported, observed_eq, lima_setup_eq]

/-- C5, refuted as stated: in the run from `zero_world`, whose `phy4_mii_en`
is 0, the switch record seen by the MDIO bus registration has
`phy4_mii_en = 0`, not 1. -/
theorem mdio_sees_phy4_mii_en_unset :
    (seen_by (.register_mdio 0 (bitnot LIMA_ETH_PHYS)) (observed all_ok zero_world)).map
        (fun s => s.ath79_switch_data.phy4_mii_en) = [0] := by
  simp [observed_eq, seen_by, zero_world, World.shared]

/-- C5, amended: `phy4_mii_en` is assigned after the MDIO bus registration and
before the first Ethernet MAC registration.  The switch record seen by the
MDIO bus registration still has the initial `phy4_mii_en`; the switch records
seen by `ath79_register_eth(1)` and `ath79_register_eth(0)`, and the final
switch record, have `phy4_mii_en = 1`. -/
theorem lima_setup_phy4_mii_en_after_mdio {S E : Type} (v : Verdict S E) (w : World S E) :
    (seen_by (.register_mdio 0 (bitnot LIMA_ETH_PHYS)) (observed v w)).map
        (fun s => s.ath79_switch_data.phy4_mii_en) = [w.ath79_switch_data.phy4_mii_en] ∧
    (seen_by (.register_eth 1) (observed v w)).map
        (fun s => s.ath79_switch_data.phy4_mii_en) = [1] ∧
    (seen_by (.register_eth 0) (observed v w)).map
        (fun s => s.ath79_switch_data.phy4_mii_en) = [1] ∧
    (lima_setup v w).ath79_switch_data.phy4_mii_en = 1 := by
  simp [observed_eq, seen_by, lima_setup_eq, at_wan, at_lan, World.shared]

/-- C6: the configuration writes are idempotent.  For every initial shared
configuration, running `lima_setup` a second time leaves the three shared
records exactly as the first run left them, the OR of bit 0 into
`phy_poll_mask` included. -/
theorem lima_setup_idempotent {S E : Type} (v v' : Verdict S E) (w : World S E) :
    (lima_setup v' (lima_setup v w)).shared = (lima_setup v w).shared := by
  simp [lima_setup_eq, World.shared, at_wan, at_lan, Nat.lor_assoc]

/-- C7: the writes never replace a whole record.  After `lima_setup` every
member it does not assign has its initial value: the speed of
`ath79_eth1_data`, and the `rest` of all three records; the final
`phy_poll_mask` is the initial one OR `BIT(0)`, so each bit other than bit 0
is as it was. -/
theorem lima_setup_frame {S E : Type} (v : Verdict S E) (w : World S E) :
    (lima_setup v w).ath79_eth1_data.speed = w.ath79_eth1_data.speed ∧
    (lima_setup v w).ath79_eth1_data.rest = w.ath79_eth1_data.rest ∧
    (lima_setup v w).ath79_eth0_data.rest = w.ath79_eth0_data.rest ∧
    (lima_setup v w).ath79_switch_data.rest = w.ath79_switch_data.rest ∧
    (lima_setup v w).ath79_switch_data.phy_poll_mask =
      w.ath79_switch_data.phy_poll_mask ||| BIT 0 ∧
    (∀ i : Nat, i ≠ 0 →
      (lima_setup v w).ath79_switch_data.phy_poll_mask.testBit i =
        w.ath79_switch_data.phy_poll_mask.testBit i) := by
  refine ⟨?_, ?_, ?_, ?_, ?_, ?_⟩
  · simp [lima_setup_eq, at_wan, at_lan]
  · simp [lima_setup_eq, at_wan, at_lan]
  · simp [lima_setup_eq, at_wan, at_lan]
  · simp [lima_setup_eq, at_wan, at_lan]
  · simp [lima_setup_eq, at_wan, at_lan]
  · intro i hi
    simp [lima_setup_eq, at_wan, at_lan, BIT_zero, Nat.testBit_or, Nat.testBit_one_eq_true_iff_self_eq_zero, hi]

/-- C8: the SPI descriptors handed to the SPI bus registration agree with the
controller.  The first call of the run is the SPI bus registration; the count
passed is 3, the length of the device list and the `num_chipselect` of the
controller; every device is on the bus of the controller, bus 0, has a
`chip_select` below `num_chipselect`, and controller data of the internal
kind whose `cs_line` is its `chip_select`; the `chip_select`s are pairwise
distinct. -/
theorem lima_setup_spi_consistent {S E : Type} (v : Verdict S E) (w : World S E) :
    ∃ (pdata : ath79_spi_platform_data) (info : List spi_board_info) (n : Nat),
      (invoked v w)[0]? = some (.register_spi pdata info n) ∧
      pdata = lima_spi_data ∧ info = lima_spi_info ∧
      n = 3 ∧ n = info.length ∧ n = pdata.num_chipselect ∧
      pdata.bus_num = 0 ∧
      (∀ d ∈ info,
        d.bus_num = pdata.bus_num ∧
        d.chip_select < pdata.num_chipselect ∧
        d.controller_data.cs_line = d.chip_select ∧
        d.controller_data.cs_type = ATH79_SPI_CS_TYPE_INTERNAL) ∧
      (info.map spi_board_info.chip_select).Nodup := by
  refine ⟨lima_spi_data, lima_spi_info, 3, ?_, rfl, rfl, rfl, rfl, rfl, rfl, ?_, ?_⟩
  · simp [invoked, observed_eq]
  · simp [lima_spi_info, lima_spi_data, lima_spi0_cdata, lima_spi1_cdata, lima_spi2_cdata]
  · simp [lima_spi_info]

/-- C9: the PHY address masks partition the MDIO bus.  The `phy_mask` values
`lima_setup` leaves in `ath79_eth0_data` (`BIT(0)`) and `ath79_eth1_data`
(`BIT(1)`) are both non-zero and share no bit; the fourth call of the run is
the MDIO bus registration on bus 0, and the mask passed is the 32-bit
complement of their union, `0xFFFFFFFC`: of the 32 addresses, bit `i` of that
mask is set exactly when neither MAC owns address `i`. -/
theorem lima_setup_phy_masks_partition {S E : Type} (v : Verdict S E) (w : World S E) :
    ∃ m0 m1 mdio : Nat,
      (lima_setup v w).ath79_eth0_data.phy_mask = m0 ∧
      (lima_setup v w).ath79_eth1_data.phy_mask = m1 ∧
      (invoked v w)[3]? = some (.register_mdio 0 mdio) ∧
      m0 = BIT 0 ∧ m1 = BIT 1 ∧
      m0 ≠ 0 ∧ m1 ≠ 0 ∧ m0 &&& m1 = 0 ∧
      mdio = bitnot (m0 ||| m1) ∧
      mdio = 0xFFFFFFFC ∧
      (∀ i : Fin 32, mdio.testBit i = !(m0.testBit i || m1.testBit i)) := by
  refine ⟨BIT 0, BIT 1, bitnot LIMA_ETH_PHYS, ?_, ?_, ?_, rfl, rfl, ?_, ?_, ?_, rfl, ?_, ?_⟩
  · simp [lima_setup_eq, at_wan]
  · simp [lima_setup_eq, at_wan, at_lan]
  · simp [invoked, observed_eq]
  · decide
  · decide
  · decide
  · decide
  · rw [bitnot_LIMA_ETH_PHYS, BIT_zero, BIT_one]
    decide

/-- C10: the second call of the run is the polled GPIO button registration;
it is given a poll interval of 20 ms and a list of exactly one button, whose
debounce interval is 60 ms, three times the poll interval, on GPIO line 16,
active low. -/
theorem lima_setup_gpio_keys {S E : Type} (v : Verdict S E) (w : World S E) :
    ∃ (id : Int) (poll n : Nat) (buttons : List gpio_keys_button) (b : gpio_keys_button),
      (invoked v w)[1]? = some (.register_gpio_keys_polled id poll n buttons) ∧
      buttons = lima_gpio_keys ∧
      buttons = [b] ∧
      n = buttons.length ∧
      poll = 20 ∧
      b.debounce_interval = 60 ∧
      b.debounce_interval = 3 * poll ∧
      b.gpio = 16 ∧
      b.active_low = 1 := by
  refine ⟨-1, LIMA_KEYS_POLL_INTERVAL, 1, lima_gpio_keys,
    ⟨"button0", EV_KEY, BTN_0, LIMA_KEYS_DEBOUNCE_INTERVAL, LIMA_GPIO_BTN_RST_DEFAULT, 1⟩,
    ?_, rfl, rfl, rfl, rfl, rfl, rfl, rfl, rfl⟩
  simp [invoked, observed_eq]

end Lima
